import Mathlib

set_option linter.unusedVariables false
set_option maxRecDepth 40000

attribute [local semireducible] Rat.add Rat.mul Rat.inv Rat.sub Rat.ofScientific

/-!
Shallow embedding of src/xl/player.py (the exaile playback core): the
playback queue with its one-shot stop-track marker, the GStreamer players
(BaseGSTPlayer, UnifiedPlayer), audio streams with playtime accounting,
the settle/seek interaction, crossfade scheduling, the fade ramp and the
audio sink.  External collaborators are modelled at their interface
boundary: gobject timeouts as a pending-source list, the event log as an
ordered trace, wall-clock time as an explicit integer parameter, and the
GStreamer element graph as explicit state fields.  Fractional volumes use
exact rationals in place of Python floats.
-/

/-- GStreamer pipeline states used by the player (gst.STATE_NULL,
gst.STATE_READY, gst.STATE_PAUSED, gst.STATE_PLAYING). -/
inductive GState
  | null
  | ready
  | paused
  | playing
  deriving DecidableEq, Repr

/-- External Track collaborator (xl.track): locator identity, locality and
existence checks, duration in seconds, and the mutable accumulated
playtime counter stored under the playtime tag. -/
structure UTrack where
  tid : Nat
  isLocal : Bool := true
  fileExists : Bool := true
  durationS : Int := 0
  playtime : Int := 0
  deriving DecidableEq, Repr

/-! ## PlayQueue (src/xl/player.py lines 35-135) -/

/-- The stop_track slot of PlayQueue: initialised to -1 (the sentinel) or
holding a marked track.  Tracks are identified by their id. -/
inductive StopMarker
  | sentinel
  | marked (t : Nat)
  deriving DecidableEq, Repr

/-- The Python comparison `self.player.current == self.stop_track`:
None == -1 is False, None == track is False, track == -1 is False, and two
tracks compare by identity. -/
def currentEqStop : Option Nat → StopMarker → Bool
  | some a, .marked b => a == b
  | _, _ => false

/-- The current_playlist collaborator (xl.playlist, outside src/): its
next() pops the head of the upcoming sequence (None when exhausted) and it
carries the current_playing flag toggled by PlayQueue.next. -/
structure CPlaylist where
  upcoming : List Nat := []
  current_playing : Bool := false
  deriving DecidableEq, Repr

/-- current_playlist.next(): advance and return the produced track, or
none when the playlist is exhausted. -/
def CPlaylist.plNext (p : CPlaylist) : CPlaylist × Option Nat :=
  match p.upcoming with
  | [] => (p, none)
  | t :: ts => ({ p with upcoming := ts }, some t)

/-- The player collaborator as seen from PlayQueue: only its notion of the
currently rendering track matters here.  stop() clears it, play(t) makes t
current (abstracting a successful start). -/
structure QueuePlayer where
  current : Option Nat := none
  deriving DecidableEq, Repr

/-- PlayQueue state: the explicitly queued tracks (ordered_tracks), the
playlist-position bookkeeping, the back-reference to the active playlist,
the one-shot stop_track marker and the player. -/
structure QueueState where
  ordered_tracks : List Nat := []
  current_pos : Nat := 0
  current_playing : Bool := false
  current_playlist : Option CPlaylist := none
  stop_track : StopMarker := .sentinel
  player : QueuePlayer := {}
  deriving DecidableEq, Repr

/-- Observable effects of a PlayQueue.next call: the stop_track event
logged with the marker value, plus the player stop/play instructions. -/
inductive QEvent
  | stopTrackEvt (m : StopMarker)
  | playerStop
  | playerPlay (t : Nat)
  deriving DecidableEq, Repr

/-- The shared tail of PlayQueue.next (src lines 91-96): if player, stop
when no track was produced, else play the produced track; finally return
the track. -/
def PlayQueue.next_tail (st : QueueState) (player : Bool) (track : Option Nat) :
    QueueState × Option Nat × List QEvent :=
  if player then
    match track with
    | none => ({ st with player := ⟨none⟩ }, none, [.playerStop])
    | some t => ({ st with player := ⟨some t⟩ }, some t, [.playerPlay t])
  else (st, track, [])

/-- PlayQueue.next(player, track) (src lines 64-96).  With no track given:
when player is set and the currently rendering track equals the
stop_track marker, stop playback, log the stop_track event, reset the
marker to -1 and return nothing; otherwise draw from the explicit queue
first, falling back to the active playlist, updating the current_playing
flags, then hand the result to the shared tail. -/
def PlayQueue.next (st : QueueState) (player : Bool := true)
    (track : Option Nat := none) : QueueState × Option Nat × List QEvent :=
  match track with
  | some t => PlayQueue.next_tail st player (some t)
  | none =>
    if player && currentEqStop st.player.current st.stop_track then
      ({ st with player := ⟨none⟩, stop_track := .sentinel }, none,
        [.playerStop, .stopTrackEvt st.stop_track])
    else
      match st.ordered_tracks with
      | [] =>
        match st.current_playlist with
        | some pl =>
          let r := pl.plNext
          PlayQueue.next_tail
            { st with current_playlist := some { r.1 with current_playing := true },
                      current_playing := false }
            player r.2
        | none => PlayQueue.next_tail st player none
      | t :: ts =>
        let st := { st with ordered_tracks := ts, current_pos := 0,
                            current_playing := true }
        let st :=
          match st.current_playlist with
          | some pl => { st with current_playlist := some { pl with current_playing := false } }
          | none => st
        PlayQueue.next_tail st player (some t)

/-- Fold a sequence of PlayQueue.next calls (each with its player flag and
optional explicit track), accumulating the event trace. -/
def runNexts (st : QueueState) : List (Bool × Option Nat) → QueueState × List QEvent
  | [] => (st, [])
  | c :: rest =>
    let r := PlayQueue.next st c.1 c.2
    let r2 := runNexts r.1 rest
    (r2.1, r.2.2 ++ r2.2)

/-- Recogniser for stop_track events in a PlayQueue trace. -/
def isStopTrackEvt : QEvent → Bool
  | .stopTrackEvt _ => true
  | _ => false

theorem currentEqStop_sentinel (c : Option Nat) : currentEqStop c .sentinel = false := by
  cases c <;> rfl

theorem next_tail_no_stop_evt (st : QueueState) (p : Bool) (tr : Option Nat) :
    (PlayQueue.next_tail st p tr).1.stop_track = st.stop_track ∧
    (PlayQueue.next_tail st p tr).2.2.filter isStopTrackEvt = [] := by
  cases tr <;> cases p <;> simp [PlayQueue.next_tail, isStopTrackEvt]

theorem next_preserves_cleared (st : QueueState) (p : Bool) (tr : Option Nat)
    (h : st.stop_track = .sentinel) :
    (PlayQueue.next st p tr).1.stop_track = .sentinel ∧
    (PlayQueue.next st p tr).2.2.filter isStopTrackEvt = [] := by
  obtain ⟨ot, cpos, cplay, cpl, stk, ply⟩ := st
  dsimp only at h
  subst h
  cases tr with
  | some t =>
    cases p <;> simp [PlayQueue.next, PlayQueue.next_tail, isStopTrackEvt]
  | none =>
    cases ot with
    | nil =>
      cases cpl with
      | none =>
        cases p <;>
          simp [PlayQueue.next, PlayQueue.next_tail, currentEqStop_sentinel, isStopTrackEvt]
      | some pl =>
        obtain ⟨up, plflag⟩ := pl
        cases up with
        | nil =>
          cases p <;>
            simp [PlayQueue.next, PlayQueue.next_tail, currentEqStop_sentinel,
              isStopTrackEvt, CPlaylist.plNext]
        | cons a as =>
          cases p <;>
            simp [PlayQueue.next, PlayQueue.next_tail, currentEqStop_sentinel,
              isStopTrackEvt, CPlaylist.plNext]
    | cons t ts =>
      cases cpl <;> cases p <;>
        simp [PlayQueue.next, PlayQueue.next_tail, currentEqStop_sentinel, isStopTrackEvt]

theorem runNexts_no_stop (calls : List (Bool × Option Nat)) :
    ∀ st : QueueState, st.stop_track = .sentinel →
      (runNexts st calls).2.filter isStopTrackEvt = [] := by
  induction calls with
  | nil => intro st h; simp [runNexts]
  | cons c rest ih =>
    intro st h
    have hp := next_preserves_cleared st c.1 c.2 h
    simp only [runNexts, List.filter_append]
    rw [hp.2, ih _ hp.1]
    rfl

/-- A queue state whose rendering track 3 equals the stop_track marker,
with track 7 explicitly queued behind it. -/
def c1CtrState : QueueState :=
  { ordered_tracks := [7], stop_track := .marked 3, player := ⟨some 3⟩ }

/-- Claim C1, counterexample: a PlayQueue.next call with no explicit track
but with player false (as issued by UnifiedPlayer._on_drained and
UnifiedPlayer._start_crossfade) does not stop on the marker: with the
rendering track equal to the stop_track marker it pops the queued track,
emits no stop_track event and leaves the marker set. -/
theorem c1_counterexample :
    (PlayQueue.next c1CtrState false none).2.1 = some 7 ∧
    (PlayQueue.next c1CtrState false none).1.stop_track = .marked 3 ∧
    (PlayQueue.next c1CtrState false none).2.2.filter isStopTrackEvt = [] := by
  decide

/-- Claim C1 (amended): for every PlayQueue.next call with no explicit
track and with the player flag true (the default), if the currently
rendering track equals the stop-track marker then the player is stopped,
one stop_track event is emitted, the marker is reset to the -1 sentinel
and nothing is returned; moreover from any state whose marker is the
sentinel (in particular right after consumption), no sequence of further
next calls ever emits a stop_track event again. -/
theorem c1_stop_marker (st : QueueState)
    (h : currentEqStop st.player.current st.stop_track = true) :
    PlayQueue.next st true none =
      ({ st with player := ⟨none⟩, stop_track := .sentinel }, none,
        [.playerStop, .stopTrackEvt st.stop_track]) ∧
    ∀ (st' : QueueState) (calls : List (Bool × Option Nat)),
      st'.stop_track = .sentinel →
      (runNexts st' calls).2.filter isStopTrackEvt = [] := by
  constructor
  · rw [PlayQueue.next]
    simp [h]
  · intro st' calls h'
    exact runNexts_no_stop calls st' h'

/-- A queue state with rendering track 3 equal to the stop_track marker
and nothing else queued. -/
def c1WState : QueueState := { stop_track := .marked 3, player := ⟨some 3⟩ }

/-- Claim C1 witness: the stop-marker consumption at a concrete state, and
a concrete post-consumption call sequence that emits no stop_track
event. -/
theorem c1_stop_marker_witness :
    currentEqStop c1WState.player.current c1WState.stop_track = true ∧
    PlayQueue.next c1WState true none =
      ({ c1WState with stop_track := .sentinel, player := ⟨none⟩ }, none,
        [.playerStop, .stopTrackEvt (.marked 3)]) ∧
    (runNexts { stop_track := .sentinel }
        [(true, none), (false, none), (true, some 9)]).2.filter isStopTrackEvt = [] := by
  refine ⟨by decide, ?_, ?_⟩
  · have h := (c1_stop_marker c1WState (by decide)).1
    simpa [c1WState] using h
  · exact (c1_stop_marker c1WState (by decide)).2
      { stop_track := .sentinel } [(true, none), (false, none), (true, some 9)] rfl

/-! ## BaseGSTPlayer (src/xl/player.py lines 197-554) -/

/-- Lifecycle events logged by BaseGSTPlayer operations. -/
inductive BEvent
  | playbackStart (tid : Nat)
  | playbackEnd
  | playbackPause
  | playbackResume
  deriving DecidableEq, Repr

/-- Association list holding each track playtime tag (the mutable
track playtime counter lives on the external Track object; a missing
or non-numeric entry reads as 0, mirroring the int/str normalisation in
update_playtime). -/
def lookupPlaytime : List (Nat × Int) → Nat → Int
  | [], _ => 0
  | (k, v) :: rest, t => if k = t then v else lookupPlaytime rest t

/-- Write a track playtime tag into the association list. -/
def setPlaytime : List (Nat × Int) → Nat → Int → List (Nat × Int)
  | [], t, v => [(t, v)]
  | (k, w) :: rest, t, v =>
    if k = t then (t, v) :: rest else (k, w) :: setPlaytime rest t v

/-- BaseGSTPlayer state: the current track, the playbin state (the model
identifies the requested and the reported GStreamer state, the
cooperative-loop abstraction of the asynchronous transition), the
playtime_stamp, the external track playtime store and the event trace. -/
structure BPState where
  current : Option UTrack := none
  gstState : GState := .null
  playtime_stamp : Option Int := none
  playtimes : List (Nat × Int) := []
  events : List BEvent := []
  deriving DecidableEq, Repr

/-- BaseGSTPlayer.update_playtime (src lines 405-420): when a track is
current and a stamp is armed, add now - stamp to the track playtime tag
and disarm the stamp. -/
def BaseGSTPlayer.update_playtime (st : BPState) (now : Int) : BPState :=
  match st.current, st.playtime_stamp with
  | some tr, some ts =>
    { st with
      playtimes := setPlaytime st.playtimes tr.tid
        (lookupPlaytime st.playtimes tr.tid + (now - ts)),
      playtime_stamp := none }
  | _, _ => st

/-- BaseGSTPlayer.reset_playtime_stamp (src line 422): stamp := now. -/
def BaseGSTPlayer.reset_playtime_stamp (st : BPState) (now : Int) : BPState :=
  { st with playtime_stamp := some now }

/-- BaseGSTPlayer.is_playing / is_paused query the reported state. -/
def BPState.is_playing (st : BPState) : Bool := st.gstState = .playing

def BPState.is_paused (st : BPState) : Bool := st.gstState = .paused

/-- BaseGSTPlayer.stop (src lines 485-496): when playing or paused, flush
playtime, drop the playbin to NULL, clear the current track and log
playback_end. -/
def BaseGSTPlayer.stop (st : BPState) (now : Int) : BPState × Bool :=
  if st.is_playing || st.is_paused then
    let st := BaseGSTPlayer.update_playtime st now
    ({ st with gstState := .null, current := none,
               events := st.events ++ [.playbackEnd] }, true)
  else (st, false)

/-- BaseGSTPlayer.pause (src lines 498-508): when playing, flush playtime,
request PAUSED, re-arm the playtime stamp and log playback_pause. -/
def BaseGSTPlayer.pause (st : BPState) (now : Int) : BPState × Bool :=
  if st.is_playing then
    let st := BaseGSTPlayer.update_playtime st now
    let st := { st with gstState := .paused }
    let st := BaseGSTPlayer.reset_playtime_stamp st now
    ({ st with events := st.events ++ [.playbackPause] }, true)
  else (st, false)

/-- BaseGSTPlayer.unpause (src lines 510-525): when paused, re-arm the
playtime stamp and request PLAYING (non-local tracks get a READY bounce
first since paused network streams are not buffered; the final requested
state is PLAYING either way) and log playback_resume. -/
def BaseGSTPlayer.unpause (st : BPState) (now : Int) : BPState × Bool :=
  if st.is_paused then
    let st := BaseGSTPlayer.reset_playtime_stamp st now
    let st := { st with gstState := .playing }
    ({ st with events := st.events ++ [.playbackResume] }, true)
  else (st, false)

/-- BaseGSTPlayer.play (src lines 451-483): stop unconditionally first;
fail on a missing track argument or on a local track whose file does not
exist; otherwise bind the track, arm the playtime stamp, set the playbin
uri (the cdda device notify callback is one-shot plumbing outside this
model), request PLAYING and log playback_start. -/
def BaseGSTPlayer.play (st : BPState) (now : Int) (track : Option UTrack) :
    BPState × Bool :=
  let st := (BaseGSTPlayer.stop st now).1
  match track with
  | none => (st, false)
  | some tr =>
    if tr.isLocal && !tr.fileExists then (st, false)
    else
      let st := { st with current := some tr }
      let st := BaseGSTPlayer.reset_playtime_stamp st now
      ({ st with gstState := .playing,
                 events := st.events ++ [.playbackStart tr.tid] }, true)

/-! ## get_progress (BaseGSTPlayer lines 395-403, UnifiedPlayer 756-761) -/

/-- Python exceptions that can escape the get_progress try block. -/
inductive PyExn
  | zeroDivisionError
  | attributeError
  deriving DecidableEq, Repr

/-- Result of evaluating a Python expression: a value or a raised
exception. -/
inductive PyResult (α : Type) where
  | ok (a : α)
  | exn (e : PyExn)
  deriving DecidableEq, Repr

/-- The try-block body of get_progress:
self.get_time()/float(self.current.get_duration()).  When current is None
the attribute access raises AttributeError before any division; when the
duration is zero the division raises ZeroDivisionError. -/
def get_progress_body (current : Option UTrack) (timeS : Int) : PyResult Rat :=
  match current with
  | none => .exn .attributeError
  | some tr =>
    if tr.durationS = 0 then .exn .zeroDivisionError
    else .ok ((timeS : Rat) / (tr.durationS : Rat))

/-- BaseGSTPlayer.get_progress (src lines 395-403): the try block catches
ZeroDivisionError only, turning it into 0; any other exception
propagates. -/
def BaseGSTPlayer.get_progress (current : Option UTrack) (timeS : Int) :
    PyResult Rat :=
  match get_progress_body current timeS with
  | .exn .zeroDivisionError => .ok 0
  | r => r

/-- UnifiedPlayer.get_progress (src lines 756-761): the code is
line-for-line the same try/except as BaseGSTPlayer.get_progress. -/
def UnifiedPlayer.get_progress (current : Option UTrack) (timeS : Int) :
    PyResult Rat :=
  BaseGSTPlayer.get_progress current timeS

/-! ## AudioSink (src/xl/player.py lines 1255-1290) -/

/-- AudioSink: the volume GStreamer element inside the sink bin, reduced
to its volume property (the master volume authority). -/
structure AudioSink where
  volProperty : Rat := 1
  deriving DecidableEq, Repr

/-- AudioSink.set_volume (src lines 1286-1287):
self.vol.set_property(volume, vol). -/
def AudioSink.set_volume (s : AudioSink) (vol : Rat) : AudioSink :=
  { s with volProperty := vol }

/-- AudioSink.get_volume (src lines 1289-1290): the body evaluates
self.vol.get_property(volume) but has no return statement, so the Python
method always returns None. -/
def AudioSink.get_volume (s : AudioSink) : Option Rat :=
  let queried := s.volProperty
  none

/-! ## The fade ramp (UnifiedPlayer._fade_stream, src lines 830-837) -/

/-- One tick of UnifiedPlayer._fade_stream on a stream volume, with
direction +1 (incoming ramp) or -1 (outgoing ramp): current :=
get_volume() + direction/100; set_volume(current); when delete is set and
current < 0.01 the stream is unlinked and the timer stops; otherwise the
gobject timeout repeats exactly while 0.01 <= current <= 1.  Returns
(volume written, unlinked-now, timer-continues). -/
def UnifiedPlayer._fade_stream (v : Rat) (direction : Int) (delete : Bool) :
    Rat × Bool × Bool :=
  let current := v + (direction : Rat) / 100
  if delete && decide (current < 1 / 100) then (current, true, false)
  else (current, false, decide (1 / 100 ≤ current ∧ current ≤ 1))

/-- The sequence of (volume written, unlinked-now) pairs produced by
repeated _fade_stream ticks from volume v, stopping when the callback
returns False so that the gobject timeout is not rescheduled (fuel bounds
the tick count; every run below terminates well within it). -/
def fadeTrace (delete : Bool) (direction : Int) : Nat → Rat → List (Rat × Bool)
  | 0, _ => []
  | n + 1, v =>
    let r := UnifiedPlayer._fade_stream v direction delete
    (r.1, r.2.1) :: (if r.2.2 then fadeTrace delete direction n r.1 else [])

/-- Boolean check that a list of volumes is non-decreasing. -/
def chainLe : List Rat → Bool
  | a :: b :: rest => decide (a ≤ b) && chainLe (b :: rest)
  | _ => true

/-- Boolean check that a list of volumes is non-increasing. -/
def chainGe : List Rat → Bool
  | a :: b :: rest => decide (b ≤ a) && chainGe (b :: rest)
  | _ => true

/-! ## Crossfade scheduling (src lines 763-864) -/

/-- What a crossfade-timer computation does: nothing, start the crossfade
at once (gobject.idle_add(self._start_crossfade)), or arm a one-shot
gobject timeout with the given delay in milliseconds. -/
inductive TimerAction
  | noTimer
  | immediate
  | schedule (delayMs : Int)
  deriving DecidableEq, Repr

/-- The decision taken by UnifiedPlayer._reset_crossfade_timer (src lines
851-864) after it has cancelled self.timer_id: bail out unless playing
with crossfading enabled; compute
time = current.get_duration()*1000 - (get_time()*1000 + duration); start
the crossfade immediately when time < duration (we are late), else arm a
timeout of time ms. -/
def UnifiedPlayer.resetCrossfadeDecision (isPlaying crossfading : Bool)
    (crossfadeDurationMs trackDurationS elapsedS : Int) : TimerAction :=
  if !isPlaying then .noTimer
  else if !crossfading then .noTimer
  else
    let t := trackDurationS * 1000 - (elapsedS * 1000 + crossfadeDurationMs)
    if t < crossfadeDurationMs then .immediate else .schedule t

/-- The crossfade timer armed inside UnifiedPlayer.play (src lines
813-816) when fading with crossfading enabled:
time = int(track.get_duration()*1000 - duration) passed straight to
gobject.timeout_add, with no immediate-start check (elapsed is 0 at track
start). -/
def UnifiedPlayer.playCrossfadeArm (trackDurationS crossfadeDurationMs : Int) :
    TimerAction :=
  .schedule (trackDurationS * 1000 - crossfadeDurationMs)

/-! ## Settle/seek interaction (AudioStream, src lines 1169-1212) -/

/-- Observable events of the settle loop and of seek requests:
settlePoll is one pass of _settle_state_sub that saw PAUSED and
re-requested PLAYING; settled is the stream_settled notification; gstSeek
is the flush+accurate seek event sent to the volume element, with its
position in nanoseconds. -/
inductive SeekEv
  | settlePoll
  | settled
  | gstSeek (posNs : Int)
  deriving DecidableEq, Repr

/-- One pass of AudioStream._settle_state_sub (src lines 1173-1185): with
the settle flag raised and the backend reporting PAUSED, re-request
PLAYING and run again (set_state re-arms the flag); otherwise clear the
flag, log stream_settled and stop. -/
def settleSub (flag : Nat) (reported : GState) : Nat × Bool :=
  if flag = 1 && decide (reported = .paused) then (1, true) else (0, false)

/-- Cooperative run of the settle loop over the backend states it will
observe, with the positions of seek calls currently blocked on
self._seek_event: each settlePoll pass repeats; at the settled
notification _seek_delayed releases the waiters (threading.Event.set) and
each released seek then sends its gst seek event exactly once. -/
def settleLoopRun (waiting : List Int) : List GState → List SeekEv
  | [] => []
  | r :: rs =>
    match settleSub 1 r with
    | (_, true) => .settlePoll :: settleLoopRun waiting rs
    | (_, false) => .settled :: waiting.map (fun v => .gstSeek v)

/-- AudioStream.seek(value) (src lines 1187-1203) together with
_seek_delayed (src lines 1205-1212): when a settle cycle is in progress
(settle flag = 1) the caller registers _seek_delayed on stream_settled and
blocks on self._seek_event until the cycle ends, then sends the
flush+accurate gst seek at SECOND * value; with no settle in progress the
seek is sent at once.  reports lists the backend states the settle loop
will observe. -/
def AudioStream.seekRun (settleFlag : Nat) (reports : List GState) (value : Int) :
    List SeekEv :=
  if settleFlag = 1 then settleLoopRun [1000000000 * value] reports
  else [.gstSeek (1000000000 * value)]

/-- Recogniser for gst seek events in a settle trace. -/
def isGstSeek : SeekEv → Bool
  | .gstSeek _ => true
  | _ => false

/-! ## AudioStream (src/xl/player.py lines 1019-1212) -/

/-- AudioStream: one track pipeline segment.  name identifies the gst.Bin;
volume is the volume element property; uri the uridecodebin uri property;
gstState the state of this bin; last_position the cached position in
nanoseconds; settle_flag the asynchronous-startup suppressor. -/
structure UStream where
  name : Nat
  track : Option UTrack := none
  playtime_stamp : Option Int := none
  volume : Rat := 1
  settle_flag : Nat := 0
  gstState : GState := .null
  uri : Option Nat := none
  last_position : Int := 0
  deriving DecidableEq, Repr

/-- AudioStream.update_playtime (src lines 1100-1115): flush now - stamp
into the bound track playtime tag and disarm the stamp. -/
def AudioStream.update_playtime (s : UStream) (now : Int) : UStream :=
  match s.track, s.playtime_stamp with
  | some tr, some ts =>
    { s with track := some { tr with playtime := tr.playtime + (now - ts) },
             playtime_stamp := none }
  | _, _ => s

/-- AudioStream.reset_playtime_stamp (src lines 1117-1118). -/
def AudioStream.reset_playtime_stamp (s : UStream) (now : Int) : UStream :=
  { s with playtime_stamp := some now }

/-- AudioStream.set_state (src lines 1120-1133): clear the settle flag;
entering PLAYING requests the state, starts the settle cycle (which raises
the flag again) and re-arms the playtime stamp; entering PAUSED flushes
playtime first, requests the state and re-arms the stamp; any other target
flushes playtime and requests the state. -/
def AudioStream.set_state (s : UStream) (now : Int) (target : GState) : UStream :=
  let s := { s with settle_flag := 0 }
  match target with
  | .playing =>
    let s := { s with gstState := .playing, settle_flag := 1 }
    AudioStream.reset_playtime_stamp s now
  | .paused =>
    let s := AudioStream.update_playtime s now
    let s := { s with gstState := .paused }
    AudioStream.reset_playtime_stamp s now
  | t =>
    let s := AudioStream.update_playtime s now
    { s with gstState := t }

/-- AudioStream.set_track (src lines 1068-1091): reject a missing track or
a local track whose file does not exist, with no change to the stream;
otherwise bind the track, arm the playtime stamp and set the decoder uri
(the one-shot cdda device-notify connection is plumbing outside this
model). -/
def AudioStream.set_track (s : UStream) (now : Int) (track : Option UTrack) :
    UStream × Bool :=
  match track with
  | none => (s, false)
  | some tr =>
    if tr.isLocal && !tr.fileExists then (s, false)
    else
      let s := { s with track := some tr }
      let s := AudioStream.reset_playtime_stamp s now
      ({ s with uri := some tr.tid }, true)

/-- AudioStream.get_current (src lines 1153-1157): the bound track while
the bin is playing or paused, else None. -/
def AudioStream.get_current (s : UStream) : Option UTrack :=
  if s.gstState = .playing || s.gstState = .paused then s.track else none

/-! ## UnifiedPlayer (src/xl/player.py lines 601-952) -/

/-- Settings read by UnifiedPlayer.play and the crossfade machinery. -/
structure USettings where
  user_fade_enabled : Bool := false
  user_fade : Int := 1000
  crossfading : Bool := false
  crossfade_duration : Int := 3000
  deriving DecidableEq, Repr

/-- The gobject timeout sources the UnifiedPlayer arms: periodic fade
ticks (tick interval in ms, direction, and the stream name being faded),
the one-shot crossfade starter, and the end-of-track stop timeout. -/
inductive TKind
  | fadeTick (intervalMs : Int) (direction : Int) (streamName : Nat)
  | startXfade (delayMs : Int)
  | stopTimeout (delayMs : Int)
  deriving DecidableEq, Repr

/-- Recogniser for pending crossfade-start timeouts. -/
def isStartXfade : TKind → Bool
  | .startXfade _ => true
  | _ => false

/-- Events logged by UnifiedPlayer operations.  playbackError is the
playback_error event of the error taxonomy; UnifiedPlayer never logs it on
the configure-failure path, which is what claim C2 is about. -/
inductive UEvent
  | playbackStart (tid : Nat)
  | playbackEnd
  | playbackError
  deriving DecidableEq, Repr

/-- UnifiedPlayer state.  current_stream indexes the two stream slots;
pipeStreams lists the names of the AudioStream bins currently added to
self.pipe and linked into the adder (the mixer attachment); timer_id is
self.timer_id (0 = unset); gobjectTimerId models the stray module
attribute gobject.timer_id written by play(); pending holds the live
gobject timeout sources as (source id, kind); nextSourceId and
nextStreamName supply fresh identifiers. -/
structure UPState where
  current_stream : Nat := 1
  stream0 : Option UStream := none
  stream1 : Option UStream := none
  pipeStreams : List Nat := []
  pipeState : GState := .null
  timer_id : Nat := 0
  gobjectTimerId : Nat := 0
  pending : List (Nat × TKind) := []
  nextSourceId : Nat := 1
  nextStreamName : Nat := 0
  events : List UEvent := []
  deriving DecidableEq, Repr

/-- self.streams[i]. -/
def UPState.getStream (st : UPState) (i : Nat) : Option UStream :=
  if i = 0 then st.stream0 else st.stream1

/-- self.streams[i] = s. -/
def UPState.setStream (st : UPState) (i : Nat) (s : Option UStream) : UPState :=
  if i = 0 then { st with stream0 := s } else { st with stream1 := s }

/-- gobject.timeout_add: register a new timeout source and return its
id. -/
def UPState.timeout_add (st : UPState) (k : TKind) : UPState × Nat :=
  ({ st with pending := st.pending ++ [(st.nextSourceId, k)],
             nextSourceId := st.nextSourceId + 1 }, st.nextSourceId)

/-- gobject.source_remove: drop the source with the given id (a no-op on
an unknown id). -/
def UPState.source_remove (st : UPState) (i : Nat) : UPState :=
  { st with pending := st.pending.filter (fun p => p.1 != i) }

/-- UnifiedPlayer.is_playing: the reported pipeline state (the model
identifies requested and reported states). -/
def UPState.is_playing (st : UPState) : Bool := st.pipeState = .playing

/-- UnifiedPlayer.current (src lines 690-694): the current stream slot
get_current(), or None with no stream. -/
def UPState.currentTrack (st : UPState) : Option UTrack :=
  match st.getStream st.current_stream with
  | some s => AudioStream.get_current s
  | none => none

/-- UnifiedPlayer.get_position (src lines 747-751): the current stream
cached position, with the AttributeError branch returning 0 when no
stream is in the slot (the backend query is modelled by the cached
last_position). -/
def UnifiedPlayer.get_position (st : UPState) : Int :=
  match st.getStream st.current_stream with
  | some s => s.last_position
  | none => 0

/-- UnifiedPlayer.get_time (src lines 753-754): position / gst.SECOND. -/
def UnifiedPlayer.get_time (st : UPState) : Int :=
  UnifiedPlayer.get_position st / 1000000000

/-- UnifiedPlayer.unlink_stream (src lines 866-886) on an optional stream
argument: with None every attribute access raises AttributeError which the
function swallows, returning True with no state change; with a stream,
unlink it from the adder, release its mixer pad, remove the bin from the
pipe (dropping its name from pipeStreams) and clear its slot in
self.streams (first matching slot; names are unique in every state built
here). -/
def UnifiedPlayer.unlink_stream (st : UPState) (s : Option UStream) :
    UPState × Bool :=
  match s with
  | none => (st, true)
  | some stream =>
    let st := { st with pipeStreams := st.pipeStreams.filter (fun n => n != stream.name) }
    let st := if st.stream0 = some stream then { st with stream0 := none } else st
    let st := if st.stream1 = some stream then { st with stream1 := none } else st
    (st, true)

/-- UnifiedPlayer._reset_crossfade_timer (src lines 851-864): cancel
self.timer_id when set (the id itself is not cleared); bail out unless
playing with crossfading enabled; otherwise compute the predictive delay
and either start the crossfade at once (gobject.idle_add, when late) or
arm a fresh timeout recorded in self.timer_id.  When playing with no
current track the source would raise AttributeError; that branch reads
duration 0 here and is exercised by no theorem below. -/
def UnifiedPlayer._reset_crossfade_timer (s : USettings) (st : UPState) : UPState :=
  let st := if st.timer_id ≠ 0 then st.source_remove st.timer_id else st
  if !st.is_playing then st
  else if !s.crossfading then st
  else
    let dur := match st.currentTrack with
               | some tr => tr.durationS
               | none => 0
    let t := dur * 1000 - (UnifiedPlayer.get_time st * 1000 + s.crossfade_duration)
    if t < s.crossfade_duration then st
    else
      let r := st.timeout_add (.startXfade t)
      { r.1 with timer_id := r.2 }

/-- UnifiedPlayer.stop (src lines 897-909): when playing or paused, drop
the pipeline to NULL, unlink both stream slots, reset the crossfade timer
(which, no longer playing, only cancels self.timer_id) and log
playback_end. -/
def UnifiedPlayer.stop (s : USettings) (st : UPState) : UPState × Bool :=
  if st.pipeState = .playing || st.pipeState = .paused then
    let st := { st with pipeState := .null }
    let st := (UnifiedPlayer.unlink_stream st st.stream0).1
    let st := (UnifiedPlayer.unlink_stream st st.stream1).1
    let st := UnifiedPlayer._reset_crossfade_timer s st
    ({ st with events := st.events ++ [.playbackEnd] }, true)
  else (st, false)

/-- UnifiedPlayer.link_stream (src lines 888-895): add the stream bin to
the pipe, link it to the adder, then configure it with set_track; on
configure failure log the error, call self.stop() and return False.  The
stream argument is self.streams[i], freshly assigned by play; the updated
stream is written back to its slot. -/
def UnifiedPlayer.link_stream (s : USettings) (st : UPState) (now : Int)
    (i : Nat) (stream : UStream) (track : Option UTrack) : UPState × Bool :=
  let st := { st with pipeStreams := st.pipeStreams ++ [stream.name] }
  let r := AudioStream.set_track stream now track
  let st := st.setStream i (some r.1)
  if !r.2 then ((UnifiedPlayer.stop s st).1, false)
  else (st, true)

/-- UnifiedPlayer.play(track, user) (src lines 763-821).  Nothing to play
returns None.  Otherwise: unlink whatever sits in the other slot; decide
fading and its duration from the user flag and settings, hard-cutting the
current stream when not fading; allocate a fresh AudioStream in the other
slot and link_stream it (returning False on configure failure); when
fading start the incoming stream at volume 0; request PLAYING on the
pipeline and the stream (with the settle flag raised); when fading arm the
two fade tick timeouts (interval duration/100) and, with crossfading
enabled, arm the predictive crossfade timeout whose id the source drops
into the module attribute gobject.timer_id instead of self.timer_id;
finally switch current_stream and log playback_start. -/
def UnifiedPlayer.play (s : USettings) (st : UPState) (now : Int)
    (track : Option UTrack) (user : Bool := true) : UPState × Option Bool :=
  match track with
  | none => (st, none)
  | some tr =>
    let next := 1 - st.current_stream
    let st := match st.getStream next with
              | some old => (UnifiedPlayer.unlink_stream st (some old)).1
              | none => st
    let fd : Bool × Int × UPState :=
      if user then
        if s.user_fade_enabled then (true, s.user_fade, st)
        else (false, 0, (UnifiedPlayer.unlink_stream st (st.getStream st.current_stream)).1)
      else
        if s.crossfading then (true, s.crossfade_duration, st)
        else (false, 0, (UnifiedPlayer.unlink_stream st (st.getStream st.current_stream)).1)
    let fading := fd.1
    let duration := fd.2.1
    let st := fd.2.2
    let newStream : UStream := { name := st.nextStreamName }
    let st := { st with nextStreamName := st.nextStreamName + 1 }
    let st := st.setStream next (some newStream)
    let r := UnifiedPlayer.link_stream s st now next newStream (some tr)
    if !r.2 then (r.1, some false)
    else
      let st := r.1
      let st := if fading then
          match st.getStream next with
          | some sN => st.setStream next (some { sN with volume := 0 })
          | none => st
        else st
      let st := { st with pipeState := .playing }
      let st := match st.getStream next with
          | some sN =>
            st.setStream next
              (some (AudioStream.set_state { sN with settle_flag := 1 } now .playing))
          | none => st
      let st :=
        if fading then
          let timeout := duration / 100
          let st := match st.getStream next with
            | some sN => (st.timeout_add (.fadeTick timeout 1 sN.name)).1
            | none => st
          let st := match st.getStream st.current_stream with
            | some sC => (st.timeout_add (.fadeTick timeout (-1) sC.name)).1
            | none => st
          if s.crossfading then
            let t := tr.durationS * 1000 - duration
            let r2 := st.timeout_add (.startXfade t)
            { r2.1 with gobjectTimerId := r2.2 }
          else st
        else st
      let st := { st with current_stream := next }
      ({ st with events := st.events ++ [.playbackStart tr.tid] }, some true)

/-! ## Claim theorems -/

/-- Claim C10 (confirmed): AudioSink.get_volume queries the volume element
property but never returns it, so a set_volume / get_volume round trip on
the sink returns None and can never observe the stored master volume,
which nevertheless sits in the element property. -/
theorem c10_get_volume_none (s : AudioSink) (v : Rat) :
    AudioSink.get_volume (AudioSink.set_volume s v) = none ∧
    (AudioSink.set_volume s v).volProperty = v := by
  exact ⟨rfl, rfl⟩

/-- Claim C9, counterexample: get_progress with no current track raises
AttributeError (None.get_duration()) instead of returning 0, in both
BaseGSTPlayer and UnifiedPlayer; only ZeroDivisionError is caught. -/
theorem c9_counterexample :
    BaseGSTPlayer.get_progress none 5 = .exn .attributeError ∧
    ¬ BaseGSTPlayer.get_progress none 5 = .ok 0 ∧
    UnifiedPlayer.get_progress none 5 = .exn .attributeError := by
  decide

/-- Claim C9 (amended): with a current track, get_progress returns the
position divided by the duration and returns 0 when the duration is 0
(the ZeroDivisionError is caught); with no current track however the call
raises AttributeError instead of returning 0, in both engines. -/
theorem c9_get_progress (tr : UTrack) (timeS : Int) :
    BaseGSTPlayer.get_progress (some tr) timeS =
      (if tr.durationS = 0 then .ok 0
       else .ok ((timeS : Rat) / (tr.durationS : Rat))) ∧
    BaseGSTPlayer.get_progress none timeS = .exn .attributeError ∧
    UnifiedPlayer.get_progress none timeS = .exn .attributeError := by
  refine ⟨?_, rfl, rfl⟩
  by_cases h : tr.durationS = 0 <;>
    simp [BaseGSTPlayer.get_progress, get_progress_body, h]

/-- Claim C5, counterexample: for an automatic crossfade armed inside
play() on a 1-second track with a 3000 ms crossfade the predicted start
time is already past (delay -2000 ms), yet the code arms
gobject.timeout_add with that negative delay instead of starting the
crossfade immediately. -/
theorem c5_counterexample :
    UnifiedPlayer.playCrossfadeArm 1 3000 = .schedule (-2000) ∧
    ¬ UnifiedPlayer.playCrossfadeArm 1 3000 = .immediate ∧
    (-2000 : Int) < 0 := by
  decide

/-- Claim C5 (amended): _reset_crossfade_timer computes the delay as
trackDurationMs - crossfadeDurationMs - elapsedMs and starts the
crossfade immediately whenever that delay is below the crossfade duration
(in particular whenever the predicted start time has already passed), so
it never arms a timeout below the crossfade duration; the timer armed
directly inside play() however is always schedule(durationMs - fadeMs)
with no immediacy check. -/
theorem c5_crossfade_schedule (dur fade el : Int) (hf : 0 ≤ fade) :
    (UnifiedPlayer.resetCrossfadeDecision true true fade dur el =
      if dur * 1000 - (el * 1000 + fade) < fade then .immediate
      else .schedule (dur * 1000 - fade - el * 1000)) ∧
    (dur * 1000 - fade - el * 1000 < 0 →
      UnifiedPlayer.resetCrossfadeDecision true true fade dur el = .immediate) ∧
    (∀ d : Int,
      UnifiedPlayer.resetCrossfadeDecision true true fade dur el = .schedule d →
      d = dur * 1000 - fade - el * 1000 ∧ fade ≤ d) ∧
    UnifiedPlayer.playCrossfadeArm dur fade = .schedule (dur * 1000 - fade) := by
  have harith : dur * 1000 - (el * 1000 + fade) = dur * 1000 - fade - el * 1000 := by ring
  refine ⟨?_, ?_, ?_, rfl⟩
  · rw [UnifiedPlayer.resetCrossfadeDecision]
    simp only [Bool.not_true, Bool.false_eq_true, if_false, harith]
  · intro hneg
    rw [UnifiedPlayer.resetCrossfadeDecision]
    simp only [Bool.not_true, Bool.false_eq_true, if_false, harith]
    rw [if_pos (by omega)]
  · intro d hd
    rw [UnifiedPlayer.resetCrossfadeDecision] at hd
    simp only [Bool.not_true, Bool.false_eq_true, if_false, harith] at hd
    by_cases hlt : dur * 1000 - fade - el * 1000 < fade
    · rw [if_pos hlt] at hd
      exact absurd hd (by simp)
    · rw [if_neg hlt] at hd
      have : d = dur * 1000 - fade - el * 1000 := by
        cases hd
        rfl
      exact ⟨this, by omega⟩

/-- Claim C5 witness: a 180 s track, 3000 ms crossfade, 100 s elapsed:
the recomputed timer is armed with exactly 77000 ms. -/
theorem c5_crossfade_schedule_witness :
    (0 : Int) ≤ 3000 ∧
    UnifiedPlayer.resetCrossfadeDecision true true 3000 180 100 =
      .schedule 77000 := by
  refine ⟨by decide, ?_⟩
  have h := (c5_crossfade_schedule 180 3000 100 (by decide)).1
  norm_num at h
  exact h

/-- Claim C3, counterexample: the incoming fade ramp does not end at 1.
The tick that reaches volume 1 still reports the ramp as live
(0.01 <= 1 <= 1 holds), so one further tick runs and writes volume
101/100, which exceeds full scale. -/
theorem c3_counterexample :
    (fadeTrace false 1 150 0).getLast?.map Prod.fst = some (101 / 100) ∧
    ¬ ((101 : Rat) / 100 ≤ 1) := by
  decide

/-- Claim C3 (amended): every _fade_stream tick changes the volume by
exactly direction/100 of full scale.  The incoming ramp (direction 1 from
volume 0, delete false) is non-decreasing and reaches exactly 1 at tick
100, but the timer only stops after a 101st tick has overshot to 101/100.
The outgoing ramp (direction -1 from volume 1, delete true) is
non-increasing from 1, runs exactly 100 ticks, unlinks the stream exactly
once, on the tick that wrote volume 0, and every unlinking tick has
written volume at most 0.01. -/
theorem c3_fade_ramp :
    (∀ (v : Rat) (d : Int) (del : Bool),
      (UnifiedPlayer._fade_stream v d del).1 = v + (d : Rat) / 100) ∧
    chainLe ((fadeTrace false 1 150 0).map Prod.fst) = true ∧
    (fadeTrace false 1 150 0).length = 101 ∧
    (fadeTrace false 1 150 0).get? 99 = some (1, false) ∧
    (fadeTrace false 1 150 0).getLast? = some (101 / 100, false) ∧
    chainGe ((fadeTrace true (-1) 150 1).map Prod.fst) = true ∧
    (fadeTrace true (-1) 150 1).length = 100 ∧
    ((fadeTrace true (-1) 150 1).filter (fun p => p.2)).length = 1 ∧
    (fadeTrace true (-1) 150 1).getLast? = some (0, true) ∧
    (fadeTrace true (-1) 150 1).all
      (fun p => !p.2 || decide (p.1 ≤ 1 / 100)) = true := by
  refine ⟨?_, ?_⟩
  · intro v d del
    simp only [UnifiedPlayer._fade_stream]
    split <;> rfl
  · decide

/-- Claim C7 (confirmed): a seek issued while a settle cycle is in
progress (settle flag raised) is queued behind the stream_settled
notification and then applied exactly once at the requested position:
for a backend that reports PAUSED n times before reaching PLAYING, the
trace is n settle polls, the settled notification, then the single gst
seek at SECOND * value; no gst seek precedes the settled notification.
With no settle in progress the seek is applied at once. -/
theorem c7_seek_settle (n : Nat) (v : Int) :
    AudioStream.seekRun 1 (List.replicate n .paused ++ [.playing]) v =
      List.replicate n .settlePoll ++ [.settled, .gstSeek (1000000000 * v)] ∧
    ((AudioStream.seekRun 1 (List.replicate n .paused ++ [.playing]) v).filter
      isGstSeek) = [.gstSeek (1000000000 * v)] ∧
    ((AudioStream.seekRun 1 (List.replicate n .paused ++ [.playing]) v).takeWhile
      (fun e => !isGstSeek e)).filter isGstSeek = [] ∧
    AudioStream.seekRun 0 (List.replicate n .paused ++ [.playing]) v =
      [.gstSeek (1000000000 * v)] := by
  have hstepP : ∀ (w : List Int) (rs : List GState),
      settleLoopRun w (GState.paused :: rs) = .settlePoll :: settleLoopRun w rs :=
    fun w rs => rfl
  have key : ∀ (m : Nat) (w : List Int),
      settleLoopRun w (List.replicate m .paused ++ [.playing]) =
        List.replicate m .settlePoll ++ (.settled :: w.map (fun x => .gstSeek x)) := by
    intro m
    induction m with
    | zero => intro w; rfl
    | succ k ih =>
      intro w
      rw [List.replicate_succ, List.cons_append, hstepP, ih]
      rw [List.replicate_succ, List.cons_append]
  have h1 : AudioStream.seekRun 1 (List.replicate n .paused ++ [.playing]) v =
      List.replicate n .settlePoll ++ [.settled, .gstSeek (1000000000 * v)] := by
    rw [AudioStream.seekRun, if_pos rfl, key n [1000000000 * v]]
    rfl
  have hfpoll : ∀ m : Nat,
      (List.replicate m SeekEv.settlePoll).filter isGstSeek = [] := by
    intro m
    induction m with
    | zero => rfl
    | succ k ih =>
      rw [List.replicate_succ, List.filter_cons]
      simp [isGstSeek, ih]
  have hstepTW : ∀ L : List SeekEv,
      List.takeWhile (fun e => !isGstSeek e) (SeekEv.settlePoll :: L) =
        SeekEv.settlePoll :: List.takeWhile (fun e => !isGstSeek e) L :=
    fun L => rfl
  refine ⟨h1, ?_, ?_, rfl⟩
  · rw [h1, List.filter_append, hfpoll n]
    rfl
  · rw [h1]
    have htw : ∀ m : Nat, (List.replicate m SeekEv.settlePoll ++
        [SeekEv.settled, SeekEv.gstSeek (1000000000 * v)]).takeWhile
        (fun e => !isGstSeek e) =
        List.replicate m SeekEv.settlePoll ++ [SeekEv.settled] := by
      intro m
      induction m with
      | zero => rfl
      | succ k ih =>
        rw [List.replicate_succ, List.cons_append, hstepTW, ih]
        rfl
    rw [htw n, List.filter_append, hfpoll n]
    rfl

/-- The local track used in the playtime scenarios. -/
def c4Track : UTrack := { tid := 1 }

/-- Claim C4, failing run on BaseGSTPlayer: play at t=0, pause at t=10,
stop at t=17 while still paused. -/
def c4BugRun : BPState :=
  let st := (BaseGSTPlayer.play {} 0 (some c4Track)).1
  let st := (BaseGSTPlayer.pause st 10).1
  (BaseGSTPlayer.stop st 17).1

/-- Claim C4, reference cycle on BaseGSTPlayer: play at t=0, pause at
t=10, unpause at t=12, stop at t=17 while playing. -/
def c4CycleRun : BPState :=
  let st := (BaseGSTPlayer.play {} 0 (some c4Track)).1
  let st := (BaseGSTPlayer.pause st 10).1
  let st := (BaseGSTPlayer.unpause st 12).1
  (BaseGSTPlayer.stop st 17).1

/-- The AudioStream used in the stream-level playtime scenarios. -/
def c4Stream : UStream := { name := 5, track := some { tid := 3 } }

/-- Claim C4, failing run on AudioStream.set_state: PLAYING at t=0,
PAUSED at t=10, NULL at t=17 while still paused. -/
def c4StreamBugRun : UStream :=
  let s := AudioStream.set_state c4Stream 0 .playing
  let s := AudioStream.set_state s 10 .paused
  AudioStream.set_state s 17 .null

/-- Claim C4, reference cycle on AudioStream.set_state: PLAYING at t=0,
PAUSED at t=10, PLAYING at t=12, NULL at t=17. -/
def c4StreamCycleRun : UStream :=
  let s := AudioStream.set_state c4Stream 0 .playing
  let s := AudioStream.set_state s 10 .paused
  let s := AudioStream.set_state s 12 .playing
  AudioStream.set_state s 17 .null

/-- Claim C4 (code bug): pause() flushes playtime and then immediately
re-arms the playtime stamp (and AudioStream.set_state PAUSED does the
same), so a stop issued while still Paused credits the paused interval as
playtime: playing 0..10 then paused 10..17 credits 17 s where the Playing
intervals sum to 10 s.  The Playing-Paused-Playing cycle of the claim
(playing 0..10, paused 10..12, playing 12..17) does credit exactly the
15 s of Playing time, in both engines. -/
theorem c4_playtime_paused_credited :
    lookupPlaytime c4BugRun.playtimes 1 = 17 ∧ ¬ (17 : Int) = 10 ∧
    lookupPlaytime c4CycleRun.playtimes 1 = 15 ∧
    c4StreamBugRun.track.map (fun t => t.playtime) = some 17 ∧
    c4StreamCycleRun.track.map (fun t => t.playtime) = some 15 := by
  decide

/-- The track playing before the failed C8 bind, and a local track whose
file does not exist. -/
def c8TrackA : UTrack := { tid := 20 }

def c8Bad : UTrack := { tid := 21, fileExists := false }

/-- A BaseGSTPlayer playing c8TrackA since t=0. -/
def c8Playing : BPState :=
  { current := some c8TrackA, gstState := .playing, playtime_stamp := some 0 }

/-- Claim C8, counterexample: BaseGSTPlayer.play on a local track whose
file does not exist returns False, but not side-effect free: it has
already stopped the previously playing track (playback_end logged,
playbin to NULL) and cleared the current-track binding before the
existence check runs. -/
theorem c8_counterexample :
    (BaseGSTPlayer.play c8Playing 30 (some c8Bad)).2 = false ∧
    (BaseGSTPlayer.play c8Playing 30 (some c8Bad)).1.current = none ∧
    ¬ (BaseGSTPlayer.play c8Playing 30 (some c8Bad)).1.current = some c8TrackA ∧
    (BaseGSTPlayer.play c8Playing 30 (some c8Bad)).1.events = [.playbackEnd] ∧
    (BaseGSTPlayer.play c8Playing 30 (some c8Bad)).1.gstState = .null := by
  decide

/-- Claim C8 (amended): AudioStream.set_track on a local track whose file
does not exist returns false with no change at all to the stream (no
binding, no uri, no stamp); BaseGSTPlayer.play on the same track also
returns false and never binds the track, but only after having
unconditionally stopped current playback first, so the previously playing
stream and the current-track binding are not left unchanged: the failed
call is exactly a stop(). -/
theorem c8_failed_bind (s : UStream) (pst : BPState) (now : Int) (tr : UTrack)
    (h1 : tr.isLocal = true) (h2 : tr.fileExists = false) :
    AudioStream.set_track s now (some tr) = (s, false) ∧
    BaseGSTPlayer.play pst now (some tr) = ((BaseGSTPlayer.stop pst now).1, false) := by
  constructor
  · rw [AudioStream.set_track]
    simp [h1, h2]
  · rw [BaseGSTPlayer.play]
    simp [h1, h2]

/-- Claim C8 witness: the failed bind at a concrete stream, player state
and track. -/
theorem c8_failed_bind_witness :
    c8Bad.isLocal = true ∧ c8Bad.fileExists = false ∧
    AudioStream.set_track c4Stream 30 (some c8Bad) = (c4Stream, false) ∧
    BaseGSTPlayer.play c8Playing 30 (some c8Bad) =
      ((BaseGSTPlayer.stop c8Playing 30).1, false) := by
  refine ⟨by decide, by decide, ?_, ?_⟩
  · exact (c8_failed_bind c4Stream c8Playing 30 c8Bad (by decide) (by decide)).1
  · exact (c8_failed_bind c4Stream c8Playing 30 c8Bad (by decide) (by decide)).2

/-- Settings with crossfading enabled (defaults otherwise). -/
def xfadeSettings : USettings := { crossfading := true }

/-- The outgoing track rendered before the C2 failure. -/
def c2TrackA : UTrack := { tid := 10, durationS := 180 }

/-- The incoming local track whose file does not exist. -/
def c2TrackB : UTrack := { tid := 11, fileExists := false, durationS := 200 }

/-- The outgoing stream: bin name 0, bound to c2TrackA, playing. -/
def c2OutStream : UStream :=
  { name := 0, track := some c2TrackA, gstState := .playing,
    playtime_stamp := some 0, uri := some 10 }

/-- A UnifiedPlayer in the Single state: one stream attached and playing
(within its own valid lifetime). -/
def c2PlayingState : UPState :=
  { current_stream := 1, stream1 := some c2OutStream, pipeStreams := [0],
    pipeState := .playing, nextStreamName := 1 }

/-- Claim C2, counterexample: an automatic crossfade transition onto a
track whose configure fails (local file missing).  link_stream calls
self.stop(), which tears the whole pipeline down: play returns False, but
the outgoing stream has been unlinked and the pipeline dropped to NULL
(its audio interrupted although it was mid-track), the only event logged
is playback_end - no playback_error / track-unplayable signal - and both
stream slots are empty. -/
theorem c2_counterexample :
    (UnifiedPlayer.play xfadeSettings c2PlayingState 50 (some c2TrackB) false).2 =
      some false ∧
    (UnifiedPlayer.play xfadeSettings c2PlayingState 50 (some c2TrackB) false).1.pipeStreams =
      [] ∧
    (UnifiedPlayer.play xfadeSettings c2PlayingState 50 (some c2TrackB) false).1.stream1 =
      none ∧
    (UnifiedPlayer.play xfadeSettings c2PlayingState 50 (some c2TrackB) false).1.pipeState =
      .null ∧
    (UnifiedPlayer.play xfadeSettings c2PlayingState 50 (some c2TrackB) false).1.events =
      [.playbackEnd] := by
  decide

/-- The outgoing stream of the generic C2 state, bound to track A. -/
def c2OutStreamOf (A : UTrack) : UStream :=
  { name := 0, track := some A, gstState := .playing,
    playtime_stamp := some 0, uri := some A.tid }

/-- A UnifiedPlayer in the Single state rendering track A. -/
def c2SingleState (A : UTrack) : UPState :=
  { current_stream := 1, stream1 := some (c2OutStreamOf A), pipeStreams := [0],
    pipeState := .playing, nextStreamName := 1 }

/-- Claim C2 (amended): when configuring the incoming stream fails during
an automatic crossfade transition (local file missing), play returns False
after link_stream has called self.stop().  From a playing engine the stop
tears down the entire pipeline: the outgoing stream is unlinked and the
pipeline dropped to NULL - its audio is interrupted even though it was
within its own lifetime - the only event logged is playback_end, never a
playback_error / track-unplayable signal, and no stream (configured or
not) stays linked.  From an idle engine stop() is a no-op instead, and the
attached-but-unconfigured incoming stream remains linked into the mixer
graph. -/
theorem c2_configure_failure (A tr : UTrack) (now : Int)
    (h1 : tr.isLocal = true) (h2 : tr.fileExists = false) :
    (UnifiedPlayer.play xfadeSettings (c2SingleState A) now (some tr) false).2 =
      some false ∧
    (UnifiedPlayer.play xfadeSettings (c2SingleState A) now (some tr) false).1.pipeStreams =
      [] ∧
    (UnifiedPlayer.play xfadeSettings (c2SingleState A) now (some tr) false).1.stream0 =
      none ∧
    (UnifiedPlayer.play xfadeSettings (c2SingleState A) now (some tr) false).1.stream1 =
      none ∧
    (UnifiedPlayer.play xfadeSettings (c2SingleState A) now (some tr) false).1.pipeState =
      .null ∧
    (UnifiedPlayer.play xfadeSettings (c2SingleState A) now (some tr) false).1.events =
      [.playbackEnd] ∧
    (UnifiedPlayer.play xfadeSettings {} now (some tr) false).2 = some false ∧
    (UnifiedPlayer.play xfadeSettings {} now (some tr) false).1.pipeStreams = [0] ∧
    (UnifiedPlayer.play xfadeSettings {} now (some tr) false).1.stream0 =
      some { name := 0 } ∧
    (UnifiedPlayer.play xfadeSettings {} now (some tr) false).1.events = [] := by
  refine ⟨?_, ?_, ?_, ?_, ?_, ?_, ?_, ?_, ?_, ?_⟩ <;>
    simp [UnifiedPlayer.play, UnifiedPlayer.link_stream, UnifiedPlayer.stop,
      UnifiedPlayer.unlink_stream, UnifiedPlayer._reset_crossfade_timer,
      AudioStream.set_track, UPState.getStream, UPState.setStream,
      UPState.source_remove, UPState.timeout_add, UPState.is_playing,
      c2SingleState, c2OutStreamOf, xfadeSettings, h1, h2, UStream.mk.injEq]

/-- Claim C2 witness: the configure failure at concrete tracks and time,
instantiating the generic statement. -/
theorem c2_configure_failure_witness :
    c2TrackB.isLocal = true ∧ c2TrackB.fileExists = false ∧
    (UnifiedPlayer.play xfadeSettings (c2SingleState c2TrackA) 50
      (some c2TrackB) false).1.pipeStreams = [] ∧
    (UnifiedPlayer.play xfadeSettings {} 50 (some c2TrackB) false).1.pipeStreams =
      [0] := by
  refine ⟨by decide, by decide, ?_, ?_⟩
  · exact (c2_configure_failure c2TrackA c2TrackB 50 (by decide) (by decide)).2.1
  · exact (c2_configure_failure c2TrackA c2TrackB 50
      (by decide) (by decide)).2.2.2.2.2.2.2.1

/-- The two local tracks of the C6 run. -/
def c6TrackA : UTrack := { tid := 1, durationS := 180 }

def c6TrackB : UTrack := { tid := 2, durationS := 200 }

/-- Claim C6 run: with crossfading enabled, two consecutive automatic
play() calls (each arming a predictive crossfade timeout) followed by
stop(). -/
def c6Run : UPState :=
  let st := (UnifiedPlayer.play xfadeSettings {} 0 (some c6TrackA) false).1
  let st := (UnifiedPlayer.play xfadeSettings st 60 (some c6TrackB) false).1
  (UnifiedPlayer.stop xfadeSettings st).1

/-- Claim C6 (code bug): play() stores the crossfade timeout id in the
module attribute gobject.timer_id instead of self.timer_id, so arming the
second crossfade timer cancels nothing, two start-crossfade timeouts are
pending at once, and stop() - whose _reset_crossfade_timer only cancels
self.timer_id, still 0 - cancels none of them: after play A, play B,
stop, both start-crossfade timeouts (and the fade-tick timeouts) are
still live, ready to fire _start_crossfade, which itself carries no
instance or version staleness guard. -/
theorem c6_stray_crossfade_timers :
    (c6Run.pending.filter (fun p => isStartXfade p.2)).length = 2 ∧
    c6Run.timer_id = 0 ∧
    c6Run.gobjectTimerId = 5 ∧
    c6Run.pending.length = 5 ∧
    c6Run.pipeState = .null ∧
    ¬ c6Run.pending = [] := by
  decide
